import Mathlib

/-!
# Verification of the webclaw bootstrap CLI

A shallow embedding of the bootstrap CLI script of the webclaw repository
(argument parsing, directory guards, template provisioning, git
bootstrapping, port patching, env-file writing), together with theorems
checking the natural-language specification against it.

JavaScript strings are modelled as `List Char`; the filesystem state the
script inspects is passed explicitly (a directory is `Option (List Str)`:
`none` when the path does not exist, otherwise its entry names); subprocess
results and filesystem failures are passed as explicit parameters.
-/

namespace Webclaw

/-- A JavaScript string, modelled as its character sequence. -/
abbrev Str := List Char

/-- Injection of a Lean string literal into the model. -/
def str (s : String) : Str := s.data

/-- JS `s.startsWith(p)`: `p` is a leading segment of `s`.
Arguments: needle first, haystack second. -/
def hasLead : Str → Str → Bool
  | [], _ => true
  | _ :: _, [] => false
  | a :: as, b :: bs => a == b && hasLead as bs

/-- JS `hay.includes(needle)`: `needle` occurs contiguously in `hay`. -/
def includesSub (hay needle : Str) : Bool :=
  match hay with
  | [] => needle.isEmpty
  | _ :: t => hasLead needle hay || includesSub t needle

/-! ## isDirEmpty (source lines 182–188)

```js
function isDirEmpty(targetDir) {
  if (!fs.existsSync(targetDir)) return true
  const files = fs.readdirSync(targetDir)
    .filter((file) => file !== '.DS_Store' && file !== '.git')
  return files.length === 0
}
```
-/

/-- `isDirEmpty`: the directory is absent, or every entry is named
`.DS_Store` or `.git`. The directory is `none` when the path does not
exist, else `some` of its entry names. -/
def isDirEmpty : Option (List Str) → Bool
  | none => true
  | some files =>
      (files.filter fun file =>
        !(decide (file = str ".DS_Store")) && !(decide (file = str ".git"))).length == 0

/-! ## ensureGitRepository (source lines 227–241)

```js
function ensureGitRepository(targetDir) {
  if (fs.existsSync(path.join(targetDir, '.git'))) return
  const result = spawnSync('git', ['init'], { cwd: targetDir, stdio: 'ignore', env: process.env })
  if (result.status === 0) process.stdout.write('Initialized git repository\n')
}
```

`spawnSync` never throws: a spawn failure is reported through
`result.error` with `result.status` null. The source reads only
`result.status`, so the subprocess is modelled by its exit status,
`none` standing for a failed spawn (null status). The function body
contains no `throw` and no `process.exit`, which the `Outcome` field
records. -/

/-- How a JS statement sequence can end: normal fall-through, an explicit
`process.exit(code)`, or a thrown error. -/
inductive Outcome
  | normal
  | exited (code : Int)
  | threw (e : Str)
deriving DecidableEq, Repr

/-- Result of `ensureGitRepository`: whether `git init` was spawned, what
was written to stdout, and how the call ended. -/
structure GitEnsureResult where
  ranGitInit : Bool
  stdoutOut : List Str
  outcome : Outcome
deriving DecidableEq, Repr

/-- The status message printed on a successful `git init`. -/
def gitInitMsg : Str := str "Initialized git repository\n"

/-- `ensureGitRepository`, over whether `targetDir/.git` exists and the
status of the spawned `git init` (`none` = spawn failure / null status). -/
def ensureGitRepository (hasGitDir : Bool) (gitInitStatus : Option Int) : GitEnsureResult :=
  if hasGitDir then
    ⟨false, [], .normal⟩
  else
    ⟨true, if gitInitStatus == some 0 then [gitInitMsg] else [], .normal⟩

/-! ## parseCliArgs (source lines 49–97) -/

/-- A parsed argument vector: `flags` is a JS `Set` (insertion order, no
duplicates), `values` a JS `Map` (insertion order, last set wins),
`positionals` an array. -/
structure ParsedArgs where
  flags : List Str
  values : List (Str × Str)
  positionals : List Str
deriving DecidableEq, Repr

/-- JS `Set.prototype.add`: appends unless already present. -/
def addFlag (fl : List Str) (a : Str) : List Str :=
  if a ∈ fl then fl else fl ++ [a]

/-- JS `Map.prototype.set`: overwrites in place when the key is present,
appends otherwise. -/
def setValue : List (Str × Str) → Str → Str → List (Str × Str)
  | [], k, v => [(k, v)]
  | (k0, v0) :: rest, k, v =>
      if k0 = k then (k0, v) :: rest else (k0, v0) :: setValue rest k v

/-- The fixed set of value-bearing option names (source lines 53–59). -/
def optionsWithValues : List Str :=
  [str "--project-name", str "--gateway-url", str "--gateway-token",
   str "--gateway-password", str "--port"]

/-- The empty `ParsedArgs` the loop starts from. -/
def emptyParsed : ParsedArgs := ⟨[], [], []⟩

/-- The loop body of `parseCliArgs` (source lines 61–94), one token at a
time. The value-consuming branch advances by two tokens, every other
branch by one; `args[index + 1]` past the end is `undefined`, which fails
the truthiness test and falls through to the flag branch. -/
def processArgs (st : ParsedArgs) : List Str → ParsedArgs
  | [] => st
  | arg :: rest =>
    if !(hasLead (str "-") arg) then
      processArgs { st with positionals := st.positionals ++ [arg] } rest
    else if arg = str "-h" ∨ arg = str "--help" then
      processArgs { st with flags := addFlag st.flags arg } rest
    else if !(hasLead (str "--") arg) then
      processArgs { st with flags := addFlag st.flags arg } rest
    else
      match arg.findIdx? (fun c => c = '=') with
      | some equalIndex =>
          processArgs
            { st with values := setValue st.values (arg.take equalIndex) (arg.drop (equalIndex + 1)) }
            rest
      | none =>
        match rest with
        | nextArg :: rest2 =>
            if decide (arg ∈ optionsWithValues) && !(hasLead (str "-") nextArg) then
              processArgs { st with values := setValue st.values arg nextArg } rest2
            else
              processArgs { st with flags := addFlag st.flags arg } (nextArg :: rest2)
        | [] => processArgs { st with flags := addFlag st.flags arg } []
termination_by l => l.length
decreasing_by all_goals simp +arith

/-- `parseCliArgs` over a token list. -/
def parseCliArgs (args : List Str) : ParsedArgs :=
  processArgs emptyParsed args

/-! ## populateTemplate (source lines 203–225)

```js
function populateTemplate(targetDir, isCurrentDir) {
  const localTemplateSource = getLocalTemplateSource()
  if (localTemplateSource) {
    if (!isCurrentDir) { copyDir(localTemplateSource, targetDir); return }
    copyDir(localTemplateSource, targetDir); return
  }
  if (!isCurrentDir) { cloneRepo(targetDir); return }
  const tempRoot = fs.mkdtempSync(path.join(os.tmpdir(), 'webclaw-'))
  const tempCloneDir = path.join(tempRoot, 'repo')
  cloneRepo(tempCloneDir)
  copyDir(tempCloneDir, targetDir)
  fs.rmSync(tempRoot, { recursive: true, force: true })
}
```

The filesystem and subprocess effects are modelled as an event trace; the
outcome of each effectful statement (`cloneRepo` may throw the spawn error
of `runCommand` or call `process.exit`; `copyDir` may throw a filesystem
error) is an explicit parameter. The statements run in source order and
there is no `try`/`finally`, so an abnormal outcome aborts the remaining
statements of the body. -/

/-- The effectful statements of `populateTemplate`, as trace events. -/
inductive FsEvent
  | copyLocalTemplate
  | cloneIntoTarget
  | mkdtemp
  | cloneIntoTemp
  | copyTempToTarget
  | rmTempRoot
deriving DecidableEq, Repr

/-- Run a JS statement sequence. Each statement is an event paired with its
outcome; the event of a statement that starts is recorded, and an abnormal
outcome (a throw or a `process.exit`) skips every following statement. -/
def runStmts : List (FsEvent × Outcome) → List FsEvent × Outcome
  | [] => ([], .normal)
  | (ev, o) :: rest =>
      match o with
      | .normal =>
          let r := runStmts rest
          (ev :: r.1, r.2)
      | _ => ([ev], o)

/-- `populateTemplate`, over whether the local template source passes its
structural check, whether the target is the current working directory, and
the outcomes of the clone and copy steps. Returns the event trace and the
overall outcome. `mkdtempSync` and `rmSync` (with `force: true`) are taken
to succeed; they are not the failure modes under study. -/
def populateTemplate (localAvail isCurrentDir : Bool) (cloneOut copyOut : Outcome) :
    List FsEvent × Outcome :=
  if localAvail then
    if !isCurrentDir then
      runStmts [(.copyLocalTemplate, copyOut)]
    else
      runStmts [(.copyLocalTemplate, copyOut)]
  else if !isCurrentDir then
    runStmts [(.cloneIntoTarget, cloneOut)]
  else
    runStmts
      [(.mkdtemp, .normal), (.cloneIntoTemp, cloneOut),
       (.copyTempToTarget, copyOut), (.rmTempRoot, .normal)]

/-! ## initProject: guards and force-clean (source lines 380–411)

```js
async function initProject(rawTarget, options, bootstrapConfig) {
  ...
  const targetDir = path.resolve(process.cwd(), rawTarget ?? '.')
  const force = options.has('--force')
  const isCurrentDir = targetDir === process.cwd()
  ensureDir(targetDir)
  if (!force && !isDirEmpty(targetDir)) {
    process.stderr.write(`Target directory is not empty. Use --force to continue: ${targetDir}\n`)
    process.exit(1)
  }
  if (force && !isDirEmpty(targetDir) && isCurrentDir) {
    process.stderr.write('Refusing to overwrite current directory. Use an empty directory for init.\n')
    process.exit(1)
  }
  if (force && !isDirEmpty(targetDir) && !isCurrentDir) {
    for (const entry of fs.readdirSync(targetDir)) {
      if (entry === '.git') continue
      fs.rmSync(path.join(targetDir, entry), { recursive: true, force: true })
    }
  }
  if (!fs.existsSync(path.join(targetDir, '.git')) && isDirEmpty(targetDir)) {
    populateTemplate(targetDir, isCurrentDir)
  }
  ...
}
```

The model covers the function up to and including the decision whether
`populateTemplate` is invoked: that span decides the guard and frame
claims, and a `process.exit(1)` inside it abandons everything after it. -/

/-- `ensureDir` (source lines 155–159): creates the directory (empty) when
absent, otherwise leaves it untouched. -/
def ensureDir : Option (List Str) → Option (List Str)
  | none => some []
  | some l => some l

/-- The force-clean loop (source lines 403–408): every entry other than
`.git` is removed (recursively, forcibly); entries named `.git` survive. -/
def forceClean : Option (List Str) → Option (List Str)
  | none => none
  | some l => some (l.filter fun entry => decide (entry = str ".git"))

/-- `fs.existsSync(path.join(targetDir, '.git'))`: the directory exists and
has an entry named `.git`. -/
def dirHasGit : Option (List Str) → Bool
  | none => false
  | some l => decide (str ".git" ∈ l)

/-- The guard message for a non-empty target without `--force`
(source line 391), which interpolates the target path. -/
def guardMsgNotEmpty (targetDir : Str) : Str :=
  str "Target directory is not empty. Use --force to continue: " ++ targetDir ++ [Char.ofNat 10]

/-- The guard message for a forced overwrite of the current directory
(source line 398); it interpolates nothing. -/
def guardMsgCurrentDir : Str :=
  str "Refusing to overwrite current directory. Use an empty directory for init.\n"

/-- How the modelled span of `initProject` ends: `process.exit(code)`, or
fall-through past the populate decision, recording whether
`populateTemplate` was invoked. -/
inductive InitStep
  | exitedInit (code : Int)
  | proceeded (populateCalled : Bool)
deriving DecidableEq, Repr

/-- Result of the modelled span of `initProject`: the target directory
contents when the span ends, everything written to stderr, and how the
span ended. -/
structure InitResult where
  dirAfter : Option (List Str)
  stderrOut : List Str
  step : InitStep
deriving DecidableEq, Repr

/-- `initProject` from `ensureDir` through the populate decision, over the
target directory contents (`none` = absent), the `--force` flag, whether
the target is the current working directory, and the resolved target path
(used only in the guard message). -/
def initProject (dir0 : Option (List Str)) (force isCurrentDir : Bool) (targetDir : Str) :
    InitResult :=
  let dir1 := ensureDir dir0
  if !force && !isDirEmpty dir1 then
    ⟨dir1, [guardMsgNotEmpty targetDir], .exitedInit 1⟩
  else if force && !isDirEmpty dir1 && isCurrentDir then
    ⟨dir1, [guardMsgCurrentDir], .exitedInit 1⟩
  else
    let dir2 := if force && !isDirEmpty dir1 && !isCurrentDir then forceClean dir1 else dir1
    ⟨dir2, [], .proceeded (!dirHasGit dir2 && isDirEmpty dir2)⟩

/-! ## parsePort (source lines 256–262)

```js
function parsePort(value, fallback) {
  const parsed = Number(value)
  if (!Number.isInteger(parsed) || parsed < 1 || parsed > 65535) {
    return fallback
  }
  return parsed
}
```

`Number(string)` is modelled exactly by the ECMAScript string-to-number
grammar with exact (rational) arithmetic: trimmed whitespace, empty string
to `0`, signed `Infinity`, hex/octal/binary literals, and signed decimal
literals with optional fraction and exponent; every other string is `NaN`.
Floating-point rounding is not modelled: a value is kept as `m·10^e`. For
`parsePort` only `Number.isInteger` and the `[1, 65535]` range test are
consumed, and on every integer in that range the double value is exact. -/

/-- A JS number as produced by `Number(string)`: `NaN`, a signed infinity,
or the exact finite value `m·10^e`. -/
inductive JsNum
  | nan
  | inf (neg : Bool)
  | fin (m : Int) (e : Int)
deriving DecidableEq, Repr

/-- JS whitespace (the `\s` class and the `Number` trim set): space, tab,
LF, VT, FF, CR, NBSP, BOM. -/
def isJsWs (c : Char) : Bool :=
  c = ' ' || c = '\t' || c.toNat = 10 || c.toNat = 11 || c.toNat = 12 ||
  c.toNat = 13 || c.toNat = 160 || c.toNat = 65279

/-- Strip JS whitespace from both ends. -/
def trimJsWs (s : Str) : Str :=
  ((s.dropWhile isJsWs).reverse.dropWhile isJsWs).reverse

/-- Value of a decimal digit run (most significant first). -/
def digitsVal (ds : List Char) : Nat :=
  ds.foldl (fun acc c => 10 * acc + (c.toNat - 48)) 0

/-- The optional exponent tail `[eE][+-]?digits` of a decimal literal; the
whole remainder must be consumed. `none` = no valid number. -/
def parseExpPart : Str → Option Int
  | [] => some 0
  | c :: r =>
      if c = 'e' ∨ c = 'E' then
        let signed : Int × Str :=
          match r with
          | '+' :: t => (1, t)
          | '-' :: t => (-1, t)
          | _ => (1, r)
        let ds := signed.2.takeWhile Char.isDigit
        if ds.isEmpty ∨ ¬(signed.2.dropWhile Char.isDigit).isEmpty then none
        else some (signed.1 * (digitsVal ds : Int))
      else none

/-- An unsigned decimal literal `digits[.digits][exp]` (at least one digit
on some side of the dot), returned as `(mantissa, powerOfTen)`. -/
def parseDec (s : Str) : Option (Int × Int) :=
  let intDigits := s.takeWhile Char.isDigit
  let s2 := s.dropWhile Char.isDigit
  match s2 with
  | '.' :: r =>
      let fracDigits := r.takeWhile Char.isDigit
      let s3 := r.dropWhile Char.isDigit
      if intDigits.isEmpty ∧ fracDigits.isEmpty then none
      else
        match parseExpPart s3 with
        | some e => some ((digitsVal (intDigits ++ fracDigits) : Int), e - fracDigits.length)
        | none => none
  | _ =>
      if intDigits.isEmpty then none
      else
        match parseExpPart s2 with
        | some e => some ((digitsVal intDigits : Int), e)
        | none => none

/-- Value of one digit in the given base, if valid. -/
def radixDigitVal (base : Nat) (c : Char) : Option Nat :=
  let v :=
    if '0' ≤ c ∧ c ≤ '9' then some (c.toNat - 48)
    else if 'a' ≤ c ∧ c ≤ 'f' then some (c.toNat - 87)
    else if 'A' ≤ c ∧ c ≤ 'F' then some (c.toNat - 55)
    else none
  match v with
  | some d => if d < base then some d else none
  | none => none

/-- A non-empty run of base-`base` digits, as a value. -/
def parseRadix (base : Nat) (r : Str) : Option Nat :=
  if r.isEmpty then none
  else r.foldl (fun acc c => acc.bind fun a => (radixDigitVal base c).map fun d => base * a + d)
    (some 0)

/-- A signed decimal literal, as a `JsNum`. -/
def jsNumberDec (t : Str) : JsNum :=
  let signed : Int × Str :=
    match t with
    | '+' :: r => (1, r)
    | '-' :: r => (-1, r)
    | _ => (1, t)
  match parseDec signed.2 with
  | some me => .fin (signed.1 * me.1) me.2
  | none => .nan

/-- `Number(string)`. -/
def jsNumber (s : Str) : JsNum :=
  let t := trimJsWs s
  if t.isEmpty then .fin 0 0
  else if t = str "Infinity" ∨ t = str "+Infinity" then .inf false
  else if t = str "-Infinity" then .inf true
  else
    match t with
    | '0' :: c :: r =>
        if c = 'x' ∨ c = 'X' then
          match parseRadix 16 r with
          | some n => .fin n 0
          | none => .nan
        else if c = 'o' ∨ c = 'O' then
          match parseRadix 8 r with
          | some n => .fin n 0
          | none => .nan
        else if c = 'b' ∨ c = 'B' then
          match parseRadix 2 r with
          | some n => .fin n 0
          | none => .nan
        else jsNumberDec t
    | _ => jsNumberDec t

/-- The integer a `JsNum` denotes, when `Number.isInteger` holds of it. -/
def JsNum.intValue : JsNum → Option Int
  | .fin m e =>
      if 0 ≤ e then some (m * (10 : Int) ^ e.toNat)
      else if ((10 : Int) ^ (-e).toNat) ∣ m then some (m / (10 : Int) ^ (-e).toNat)
      else none
  | _ => none

/-- `parsePort`: the parsed value when it is an integer in `[1, 65535]`,
the fallback otherwise (a non-integer, `NaN` or infinity fails the
`Number.isInteger` test and an out-of-range integer fails the comparisons,
all returning the fallback). -/
def parsePort (value : Str) (fallback : Int) : Int :=
  let parsed := jsNumber value
  match parsed.intValue with
  | none => fallback
  | some n => if n < 1 ∨ n > 65535 then fallback else n

/-! ## setDevPort (source lines 264–284)

```js
function setDevPort(targetDir, port) {
  const appPackagePath = ...
  if (!fs.existsSync(appPackagePath)) return
  const packageJson = JSON.parse(fs.readFileSync(appPackagePath, 'utf8'))
  if (!packageJson.scripts || typeof packageJson.scripts.dev !== 'string') return
  if (packageJson.scripts.dev.includes('--port')) {
    packageJson.scripts.dev = packageJson.scripts.dev.replace(re, `--port ${port}`)
    // re is the regex: literal --port, then \s+, then \d+ (no global flag)
  } else {
    packageJson.scripts.dev = `${packageJson.scripts.dev} --port ${port}`
  }
  fs.writeFileSync(appPackagePath, `${JSON.stringify(packageJson, null, 2)}\n`)
}
```

The manifest is modelled by its `scripts.dev` field: `scriptsDev = none`
collapses the two no-op shapes "no `scripts` object" and "`scripts.dev`
not a string"; the file itself being absent is the outer `Option`. -/

/-- The parsed package manifest, reduced to the one field `setDevPort`
reads and writes. -/
structure PackageJson where
  scriptsDev : Option Str
deriving DecidableEq, Repr

/-- Decimal rendering of a number interpolated by a template literal. -/
def natToStr (n : Nat) : Str := (Nat.repr n).data

/-- Length of a match of the regex `--port\s+\d+` anchored at the front of
`s`, if any: the literal `--port`, then one or more JS whitespace, then one or
more decimal digits (both runs maximal — with nothing after `\d+` in the
pattern, backtracking can never produce a match the greedy run misses). -/
def matchPortLen (s : Str) : Option Nat :=
  if hasLead (str "--port") s then
    let rest := s.drop 6
    let ws := rest.takeWhile isJsWs
    if ws.isEmpty then none
    else
      let rest2 := rest.drop ws.length
      let ds := rest2.takeWhile Char.isDigit
      if ds.isEmpty then none else some (6 + ws.length + ds.length)
  else none

/-- JS `s.replace(re, repl)` for the regex `--port\s+\d+` without the
global flag: replace the leftmost match, or return `s` unchanged when
there is none. -/
def replacePortOnce (s : Str) (repl : Str) : Str :=
  match s with
  | [] => []
  | c :: t =>
      match matchPortLen (c :: t) with
      | some n => repl ++ (c :: t).drop n
      | none => c :: replacePortOnce t repl

/-- Whether the regex `--port\s+\d+` matches anywhere in `s` — i.e.
whether the script embeds a full `--port <number>` token. Used to state
when the in-place rewrite actually fires. -/
def hasPortToken : Str → Bool
  | [] => false
  | c :: t => (matchPortLen (c :: t)).isSome || hasPortToken t

/-- `setDevPort`, over the manifest file contents (`none` = file absent)
and the port. Returns the manifest written back, or `none` when the
function returns without writing. -/
def setDevPort (file : Option PackageJson) (port : Nat) : Option PackageJson :=
  match file with
  | none => none
  | some pj =>
      match pj.scriptsDev with
      | none => none
      | some dev =>
          if includesSub dev (str "--port") then
            some ⟨some (replacePortOnce dev (str "--port " ++ natToStr port))⟩
          else
            some ⟨some (dev ++ str " --port " ++ natToStr port)⟩

/-- The serialized form `setDevPort` writes:
`JSON.stringify(packageJson, null, 2)` followed by a newline. Only the
modelled `scripts.dev` field is rendered (JSON escaping inside the script
string is not modelled; no claim depends on it). -/
def writtenManifest (pj : PackageJson) : Str :=
  (match pj.scriptsDev with
   | some dev =>
       str "\x7b\n  \"scripts\": \x7b\n    \"dev\": \"" ++ dev ++
         str "\"\n  \x7d\n\x7d"
   | none => str "\x7b\x7d") ++ ['\n']

/-! ## writeEnvFile (source lines 286–301)

```js
function writeEnvFile(targetDir, envValues) {
  ...
  const lines = [
    `CLAWDBOT_GATEWAY_URL=${envValues.gatewayUrl}`,
    `CLAWDBOT_GATEWAY_TOKEN=${envValues.gatewayToken}`,
  ]
  if (envValues.gatewayPassword.length > 0) {
    lines.push(`CLAWDBOT_GATEWAY_PASSWORD=${envValues.gatewayPassword}`)
  }
  fs.writeFileSync(envFile, `${lines.join('\n')}\n`)
  ...
}
```
-/

/-- The three gateway settings handed to `writeEnvFile`. -/
structure EnvValues where
  gatewayUrl : Str
  gatewayToken : Str
  gatewayPassword : Str
deriving DecidableEq, Repr

/-- The `lines` array: URL line, token line, and the password line only
when the password is non-empty. -/
def envLines (v : EnvValues) : List Str :=
  let lines := [str "CLAWDBOT_GATEWAY_URL=" ++ v.gatewayUrl,
                str "CLAWDBOT_GATEWAY_TOKEN=" ++ v.gatewayToken]
  if v.gatewayPassword.length > 0 then
    lines ++ [str "CLAWDBOT_GATEWAY_PASSWORD=" ++ v.gatewayPassword]
  else lines

/-- JS `Array.prototype.join(sep)`. -/
def joinSep (sep : Str) : List Str → Str
  | [] => []
  | [x] => x
  | x :: y :: xs => x ++ sep ++ joinSep sep (y :: xs)

/-- The file contents `writeEnvFile` writes: `lines.join('\n')` plus a
final newline. -/
def writeEnvFile (v : EnvValues) : Str :=
  joinSep ['\n'] (envLines v) ++ ['\n']

/-- Physical lines of a text, splitting at every `'\n'` (JS
`text.split('\n')` semantics: a trailing newline yields a final empty
piece). Used to state what the written env file looks like. -/
def splitLines : Str → List Str
  | [] => [[]]
  | c :: t =>
      if c = '\n' then [] :: splitLines t
      else
        match splitLines t with
        | h :: r => (c :: h) :: r
        | [] => [[c]]

/-! ## Helper lemmas -/

theorem hasLead_append_self (b c : Str) : hasLead b (b ++ c) = true := by
  induction b with
  | nil => rfl
  | cons a as ih => simp [hasLead, ih]

theorem includesSub_cons_of_tail (c : Char) (t needle : Str)
    (h : includesSub t needle = true) : includesSub (c :: t) needle = true := by
  simp [includesSub, h]

theorem includesSub_nil_needle (hay : Str) : includesSub hay [] = true := by
  cases hay <;> simp [includesSub, hasLead]

theorem includesSub_of_append_mid (a b c : Str) :
    includesSub (a ++ (b ++ c)) b = true := by
  induction a with
  | nil =>
      cases b with
      | nil => exact includesSub_nil_needle c
      | cons y ys => simp [includesSub, hasLead, hasLead_append_self]
  | cons x a ih =>
      simpa [includesSub] using Or.inr ih

/-! ## C1: temp-directory cleanup in the clone-then-copy path -/

/-- C1 (counterexample): in the clone-then-copy path of `populateTemplate`
(no local template, target is the current directory), when the copy of the
cloned tree into the target throws, the removal of the temporary staging
directory is NOT attempted — the error propagates with `rmTempRoot`
absent from the trace, contradicting the claim that removal is
unconditional. -/
theorem populateTemplate_copy_failure_skips_cleanup_cex :
    (populateTemplate false true .normal (.threw (str "copy failed"))).2 =
      .threw (str "copy failed") ∧
    FsEvent.rmTempRoot ∉ (populateTemplate false true .normal (.threw (str "copy failed"))).1 := by
  decide

/-- C1 (amended): in the clone-then-copy path of `populateTemplate`, the
temporary staging directory is removed exactly when both the clone and the
copy succeed; when the copy fails, the error propagates and removal of the
temporary directory is not attempted. -/
theorem populateTemplate_temp_removal_requires_copy_success :
    ∀ cloneOut copyOut : Outcome,
      (FsEvent.rmTempRoot ∈ (populateTemplate false true cloneOut copyOut).1 ↔
        cloneOut = .normal ∧ copyOut = .normal) ∧
      ∀ e, populateTemplate false true .normal (.threw e) =
        ([.mkdtemp, .cloneIntoTemp, .copyTempToTarget], .threw e) := by
  intro cloneOut copyOut
  constructor
  · cases cloneOut <;> cases copyOut <;> simp [populateTemplate, runStmts]
  · intro e; rfl

/-! ## C2, C3, C4: initProject guards and force-clean -/

theorem initProject_noforce_nonempty (l : List Str) (icd : Bool) (td : Str)
    (h : isDirEmpty (some l) = false) :
    initProject (some l) false icd td = ⟨some l, [guardMsgNotEmpty td], .exitedInit 1⟩ := by
  simp [initProject, ensureDir, h]

theorem filter_git_isDirEmpty (l : List Str) :
    isDirEmpty (some (l.filter fun e => decide (e = str ".git"))) = true := by
  simp only [isDirEmpty]
  have hnil : (l.filter fun e => decide (e = str ".git")).filter
      (fun file => !(decide (file = str ".DS_Store")) && !(decide (file = str ".git"))) = [] := by
    rw [List.filter_eq_nil_iff]
    intro a ha
    have hgit : a = str ".git" := by
      have := (List.mem_filter.mp ha).2
      simpa using this
    simp [hgit]
  rw [hnil]
  rfl

theorem dirHasGit_filter (l : List Str) :
    dirHasGit (some (l.filter fun e => decide (e = str ".git"))) =
      decide (str ".git" ∈ l) := by
  simp only [dirHasGit]
  exact decide_eq_decide.mpr (by simp [List.mem_filter])

/-- C2 (counterexample): for the second guard violation — `--force` on a
non-empty target that is the current working directory — the error
message is a fixed sentence that does not include the offending path,
contradicting the claim that both guard messages include it. -/
theorem initProject_force_cwd_guard_message_lacks_path_cex :
    (initProject (some [str "file"]) true true (str "/work/proj")).stderrOut =
      [guardMsgCurrentDir] ∧
    includesSub guardMsgCurrentDir (str "/work/proj") = false ∧
    (initProject (some [str "file"]) true true (str "/work/proj")).step = .exitedInit 1 := by
  decide

/-- C2 (amended): both guard violations exit with status 1 before any
mutation of the target's contents; the non-empty-without-force guard's
message includes the offending path, while the forced-overwrite-of-cwd
guard prints a fixed message without the path. -/
theorem initProject_guard_violations (l : List Str) (icd : Bool) (td : Str)
    (h : isDirEmpty (some l) = false) :
    (initProject (some l) false icd td = ⟨some l, [guardMsgNotEmpty td], .exitedInit 1⟩ ∧
      includesSub (guardMsgNotEmpty td) td = true) ∧
    initProject (some l) true true td = ⟨some l, [guardMsgCurrentDir], .exitedInit 1⟩ := by
  refine ⟨⟨initProject_noforce_nonempty l icd td h, ?_⟩, ?_⟩
  · have hmid := includesSub_of_append_mid
      (str "Target directory is not empty. Use --force to continue: ") td [Char.ofNat 10]
    simpa [guardMsgNotEmpty, List.append_assoc] using hmid
  · simp [initProject, ensureDir, h]

/-- C2 (witness): the amended guard behavior at a concrete non-empty
directory and path. -/
theorem initProject_guard_violations_witness :
    (initProject (some [str "a.txt"]) false false (str "/demo") =
      ⟨some [str "a.txt"], [guardMsgNotEmpty (str "/demo")], .exitedInit 1⟩ ∧
      includesSub (guardMsgNotEmpty (str "/demo")) (str "/demo") = true) ∧
    initProject (some [str "a.txt"]) true true (str "/demo") =
      ⟨some [str "a.txt"], [guardMsgCurrentDir], .exitedInit 1⟩ :=
  initProject_guard_violations [str "a.txt"] false (str "/demo") (by decide)

/-- C3 (counterexample): a forced re-init of a non-current, non-empty
target that contains a `.git` entry deletes everything else but does NOT
repopulate from the template: the populate condition `!exists(.git)`
fails, so the target is left holding only `.git`, contradicting the
claim that the deletion happens before a repopulation. -/
theorem initProject_force_git_no_repopulate_cex :
    initProject (some [str ".git", str "src"]) true false (str "/work/proj") =
      ⟨some [str ".git"], [], .proceeded false⟩ := by
  decide

/-- C3 (amended): a forced init of a non-empty target that is not the
current directory deletes every entry except those named `.git` before
the populate decision; template repopulation then occurs exactly when the
original listing had no `.git` entry, so `.git` is the only content ever
preserved. -/
theorem initProject_force_preserves_only_git (l : List Str) (td : Str)
    (h : isDirEmpty (some l) = false) :
    initProject (some l) true false td =
      ⟨some (l.filter fun e => decide (e = str ".git")), [],
        .proceeded (!(decide (str ".git" ∈ l)))⟩ := by
  simp [initProject, ensureDir, forceClean, h, dirHasGit_filter, filter_git_isDirEmpty]

/-- C3 (witness): forcing over a directory holding one ordinary file
deletes it and proceeds to repopulate. -/
theorem initProject_force_preserves_only_git_witness :
    initProject (some [str "notes.txt"]) true false (str "/demo") =
      ⟨some [], [], .proceeded true⟩ := by
  have h := initProject_force_preserves_only_git [str "notes.txt"] (str "/demo") (by decide)
  exact h.trans (by decide)

/-- C4: initializing a non-empty target without `--force` fails with the
guard error naming the path, exits 1, writes nothing (the directory
contents are unchanged), and running the same invocation again on the
resulting state produces the identical result. -/
theorem initProject_noforce_nonempty_idempotent (l : List Str) (icd : Bool) (td : Str)
    (h : isDirEmpty (some l) = false) :
    initProject (some l) false icd td = ⟨some l, [guardMsgNotEmpty td], .exitedInit 1⟩ ∧
    initProject (initProject (some l) false icd td).dirAfter false icd td =
      initProject (some l) false icd td := by
  have h1 := initProject_noforce_nonempty l icd td h
  refine ⟨h1, ?_⟩
  rw [h1]
  exact h1

/-- C4 (witness): the repeated failed invocation at a concrete non-empty
directory. -/
theorem initProject_noforce_nonempty_idempotent_witness :
    initProject (some [str "a.txt"]) false true (str "/demo") =
      ⟨some [str "a.txt"], [guardMsgNotEmpty (str "/demo")], .exitedInit 1⟩ ∧
    initProject (initProject (some [str "a.txt"]) false true (str "/demo")).dirAfter false true
        (str "/demo") =
      initProject (some [str "a.txt"]) false true (str "/demo") :=
  initProject_noforce_nonempty_idempotent [str "a.txt"] true (str "/demo") (by decide)

/-! ## C5: value-bearing option followed by an option-looking token -/

/-- C5: when any of the five value-bearing option names is immediately
followed by a token starting with `-`, the parse step records the option
as a bare flag (touching neither the values map nor the positionals) and
continues the same pass at the following token, which is then classified
on its own. -/
theorem processArgs_value_option_before_dash (st : ParsedArgs) (o t : Str) (rest : List Str)
    (h1 : o ∈ optionsWithValues) (h2 : hasLead (str "-") t = true) :
    processArgs st (o :: t :: rest) =
      processArgs { st with flags := addFlag st.flags o } (t :: rest) := by
  fin_cases h1 <;>
    (conv_lhs => rw [processArgs]) <;>
    simp +decide [h2, List.findIdx?]

/-- C5 (witness): `--port` directly followed by `-x` becomes a bare flag
and `-x` is classified on its own. -/
theorem processArgs_value_option_before_dash_witness :
    processArgs emptyParsed (str "--port" :: str "-x" :: []) =
      processArgs { emptyParsed with flags := addFlag emptyParsed.flags (str "--port") }
        (str "-x" :: []) :=
  processArgs_value_option_before_dash emptyParsed (str "--port") (str "-x") []
    (by decide) (by decide)

/-! ## C7: parsePort validation -/

/-- C7: `parsePort` falls back on `"0"`, `"65536"`, `"abc"` and `"-1"`,
accepts `"1"` and `"65535"` as themselves, and in general returns the
parsed value exactly when the input parses (as a JS number) to an integer
in `[1, 65535]`, and the supplied fallback otherwise. -/
theorem parsePort_spec :
    ∀ fb : Int,
      parsePort (str "0") fb = fb ∧ parsePort (str "65536") fb = fb ∧
      parsePort (str "abc") fb = fb ∧ parsePort (str "-1") fb = fb ∧
      parsePort (str "1") fb = 1 ∧ parsePort (str "65535") fb = 65535 ∧
      ∀ s : Str, parsePort s fb =
        (match (jsNumber s).intValue with
         | some n => if 1 ≤ n ∧ n ≤ 65535 then n else fb
         | none => fb) := by
  intro fb
  refine ⟨rfl, rfl, rfl, rfl, rfl, rfl, ?_⟩
  intro s
  simp only [parsePort]
  cases (jsNumber s).intValue with
  | none => rfl
  | some n =>
      dsimp only
      by_cases h : n < 1 ∨ n > 65535
      · rw [if_pos h, if_neg (by omega)]
      · rw [if_neg h, if_pos (by omega)]

/-! ## C9: isDirEmpty -/

/-- C9: `isDirEmpty` is true for an absent path, true when every entry is
named `.git` or `.DS_Store`, and false as soon as some entry has any
other name. -/
theorem isDirEmpty_spec :
    isDirEmpty none = true ∧
    (∀ l, (∀ e ∈ l, e = str ".git" ∨ e = str ".DS_Store") → isDirEmpty (some l) = true) ∧
    (∀ l e, e ∈ l → e ≠ str ".git" → e ≠ str ".DS_Store" → isDirEmpty (some l) = false) := by
  refine ⟨rfl, ?_, ?_⟩
  · intro l h
    simp only [isDirEmpty]
    have hnil : l.filter
        (fun file => !(decide (file = str ".DS_Store")) && !(decide (file = str ".git"))) = [] := by
      rw [List.filter_eq_nil_iff]
      intro a ha
      rcases h a ha with h1 | h1 <;> simp [h1]
    rw [hnil]
    rfl
  · intro l e he h1 h2
    simp only [isDirEmpty]
    have hmem : e ∈ l.filter
        (fun file => !(decide (file = str ".DS_Store")) && !(decide (file = str ".git"))) :=
      List.mem_filter.mpr ⟨he, by simp [h1, h2]⟩
    cases hf : l.filter
        (fun file => !(decide (file = str ".DS_Store")) && !(decide (file = str ".git"))) with
    | nil => rw [hf] at hmem; cases hmem
    | cons a t => rfl

/-- C9 (witness): concrete instances — a directory holding only `.git` and
`.DS_Store` counts as empty, one holding `a.txt` does not. -/
theorem isDirEmpty_spec_witness :
    isDirEmpty (some [str ".git", str ".DS_Store"]) = true ∧
    isDirEmpty (some [str "a.txt"]) = false := by
  refine ⟨isDirEmpty_spec.2.1 _ (by decide), isDirEmpty_spec.2.2 _ (str "a.txt") (by decide)
    (by decide) (by decide)⟩

/-! ## C6: setDevPort -/

theorem matchPortLen_none_of_not_lead (s : Str) (h : hasLead (str "--port") s = false) :
    matchPortLen s = none := by
  simp [matchPortLen, h]

theorem includesSub_replacePortOnce (dev repl : Str) (h : hasPortToken dev = true) :
    includesSub (replacePortOnce dev repl) repl = true := by
  induction dev with
  | nil => cases h
  | cons c t ih =>
      simp only [replacePortOnce]
      cases hm : matchPortLen (c :: t) with
      | some n =>
          simpa using includesSub_of_append_mid [] repl ((c :: t).drop n)
      | none =>
          have h2 : hasPortToken t = true := by
            rw [hasPortToken, hm] at h
            simpa using h
          exact includesSub_cons_of_tail _ _ _ (ih h2)

theorem includesSub_port_of_hasPortToken (dev : Str) (h : hasPortToken dev = true) :
    includesSub dev (str "--port") = true := by
  induction dev with
  | nil => cases h
  | cons c t ih =>
      rw [hasPortToken] at h
      rcases Bool.or_eq_true_iff.mp h with hm | ht2
      · cases hl0 : hasLead (str "--port") (c :: t) with
        | true => simp [includesSub, hl0]
        | false => rw [matchPortLen_none_of_not_lead _ hl0] at hm; simp at hm
      · exact includesSub_cons_of_tail _ _ _ (ih ht2)

theorem replacePortOnce_id_of_no_token (dev repl : Str) (h : hasPortToken dev = false) :
    replacePortOnce dev repl = dev := by
  induction dev with
  | nil => rfl
  | cons c t ih =>
      rw [hasPortToken] at h
      have h1 : matchPortLen (c :: t) = none := by
        cases hm : matchPortLen (c :: t) with
        | none => rfl
        | some n => rw [hm] at h; simp at h
      have h2 : hasPortToken t = false := by rw [h1] at h; simpa using h
      simp [replacePortOnce, h1, ih h2]

/-- C6 (counterexample): a dev script that contains the substring
`--port` but no full `--port <number>` token — here `vite --port=3000` —
is neither rewritten nor appended to: `setDevPort` leaves it unchanged,
and the resulting script does not contain `--port 4000`, contradicting
the claim's rewrite-or-append dichotomy and its "contains the requested
port" consequence. -/
theorem setDevPort_port_eq_cex :
    setDevPort (some ⟨some (str "vite --port=3000")⟩) 4000 =
      some ⟨some (str "vite --port=3000")⟩ ∧
    includesSub (str "vite --port=3000") (str "--port 4000") = false := by
  decide

/-- C6 (amended): `setDevPort` no-ops (writes nothing) when the manifest
file or the dev script field is absent; it branches on the *substring*
`--port`: when absent it appends ` --port <n>` (and the result then
contains `--port <n>`); when present it replaces the first full
`--port <digits>` token, so that a script with a full token ends up
containing `--port <n>`, while a script whose `--port` substring has no
digit token is left unchanged. Whatever it writes ends with a trailing
newline. -/
theorem setDevPort_spec :
    (∀ port, setDevPort none port = none) ∧
    (∀ port, setDevPort (some ⟨none⟩) port = none) ∧
    (∀ dev port, includesSub dev (str "--port") = false →
      setDevPort (some ⟨some dev⟩) port =
        some ⟨some (dev ++ str " --port " ++ natToStr port)⟩ ∧
      includesSub (dev ++ str " --port " ++ natToStr port)
        (str "--port " ++ natToStr port) = true) ∧
    (∀ dev port, includesSub dev (str "--port") = true →
      setDevPort (some ⟨some dev⟩) port =
        some ⟨some (replacePortOnce dev (str "--port " ++ natToStr port))⟩) ∧
    (∀ dev port, hasPortToken dev = true →
      setDevPort (some ⟨some dev⟩) port =
        some ⟨some (replacePortOnce dev (str "--port " ++ natToStr port))⟩ ∧
      includesSub (replacePortOnce dev (str "--port " ++ natToStr port))
        (str "--port " ++ natToStr port) = true) ∧
    (∀ dev port, includesSub dev (str "--port") = true → hasPortToken dev = false →
      replacePortOnce dev (str "--port " ++ natToStr port) = dev) ∧
    (∀ pj, ∃ body, writtenManifest pj = body ++ ['\n']) := by
  refine ⟨fun _ => rfl, fun _ => rfl, ?_, ?_, ?_, ?_, fun pj => ⟨_, rfl⟩⟩
  · intro dev port h
    constructor
    · simp [setDevPort, h]
    · have hsplit : str " --port " = ' ' :: str "--port " := rfl
      have hmid := includesSub_of_append_mid (dev ++ [' '])
        (str "--port " ++ natToStr port) []
      simpa [hsplit, List.append_assoc] using hmid
  · intro dev port h
    simp [setDevPort, h]
  · intro dev port h
    refine ⟨?_, includesSub_replacePortOnce dev _ h⟩
    simp [setDevPort, includesSub_port_of_hasPortToken dev h]
  · intro dev port _ h2
    exact replacePortOnce_id_of_no_token dev _ h2

/-- C6 (witness): concrete instances of the amended behavior — appending
to `vite dev`, and rewriting the token in `vite dev --port 3000`. -/
theorem setDevPort_spec_witness :
    setDevPort (some ⟨some (str "vite dev")⟩) 3000 =
      some ⟨some (str "vite dev" ++ str " --port " ++ natToStr 3000)⟩ ∧
    setDevPort (some ⟨some (str "vite dev --port 3000")⟩) 4000 =
      some ⟨some (replacePortOnce (str "vite dev --port 3000")
        (str "--port " ++ natToStr 4000))⟩ :=
  ⟨(setDevPort_spec.2.2.1 _ 3000 (by decide)).1,
   setDevPort_spec.2.2.2.1 _ 4000 (by decide)⟩

/-! ## C8: writeEnvFile -/

theorem splitLines_append (a b : Str) (h : ('\n' : Char) ∉ a) :
    splitLines (a ++ '\n' :: b) = a :: splitLines b := by
  induction a with
  | nil => simp [splitLines]
  | cons c t ih =>
      have hc : c ≠ '\n' := fun hh => h (hh ▸ List.mem_cons_self _ _)
      have ht : ('\n' : Char) ∉ t := fun hh => h (List.mem_cons_of_mem _ hh)
      simp only [List.cons_append, splitLines, if_neg hc]
      rw [List.append_eq, ih ht]

/-- C8: the env file written for an empty password is exactly the two
lines URL then token (a trailing newline and no password line); for a
non-empty password it is exactly the three lines URL, token, password in
that order. The password key line exists exactly when the password is
non-empty, so it is never written with an empty value. Values are assumed
newline-free, as a line-oriented KEY=VALUE file requires. -/
theorem writeEnvFile_lines (v : EnvValues)
    (hu : ('\n' : Char) ∉ v.gatewayUrl) (ht : ('\n' : Char) ∉ v.gatewayToken)
    (hp : ('\n' : Char) ∉ v.gatewayPassword) :
    (v.gatewayPassword = [] →
      splitLines (writeEnvFile v) =
        [str "CLAWDBOT_GATEWAY_URL=" ++ v.gatewayUrl,
         str "CLAWDBOT_GATEWAY_TOKEN=" ++ v.gatewayToken, []]) ∧
    (v.gatewayPassword ≠ [] →
      splitLines (writeEnvFile v) =
        [str "CLAWDBOT_GATEWAY_URL=" ++ v.gatewayUrl,
         str "CLAWDBOT_GATEWAY_TOKEN=" ++ v.gatewayToken,
         str "CLAWDBOT_GATEWAY_PASSWORD=" ++ v.gatewayPassword, []]) := by
  have hu2 : ('\n' : Char) ∉ str "CLAWDBOT_GATEWAY_URL=" ++ v.gatewayUrl := by
    intro hmem
    rcases List.mem_append.mp hmem with hx | hx
    · exact absurd hx (by decide)
    · exact hu hx
  have ht2 : ('\n' : Char) ∉ str "CLAWDBOT_GATEWAY_TOKEN=" ++ v.gatewayToken := by
    intro hmem
    rcases List.mem_append.mp hmem with hx | hx
    · exact absurd hx (by decide)
    · exact ht hx
  have hp2 : ('\n' : Char) ∉ str "CLAWDBOT_GATEWAY_PASSWORD=" ++ v.gatewayPassword := by
    intro hmem
    rcases List.mem_append.mp hmem with hx | hx
    · exact absurd hx (by decide)
    · exact hp hx
  constructor
  · intro h0
    have hlines : envLines v =
        [str "CLAWDBOT_GATEWAY_URL=" ++ v.gatewayUrl,
         str "CLAWDBOT_GATEWAY_TOKEN=" ++ v.gatewayToken] := by
      simp [envLines, h0]
    have hshape : writeEnvFile v =
        (str "CLAWDBOT_GATEWAY_URL=" ++ v.gatewayUrl) ++ '\n' ::
          ((str "CLAWDBOT_GATEWAY_TOKEN=" ++ v.gatewayToken) ++ '\n' :: []) := by
      simp [writeEnvFile, hlines, joinSep, List.append_assoc]
    rw [hshape, splitLines_append _ _ hu2, splitLines_append _ _ ht2]
    rfl
  · intro h0
    have hlen : v.gatewayPassword.length > 0 := by
      cases hpx : v.gatewayPassword with
      | nil => exact absurd hpx h0
      | cons x xs => simp [hpx]
    have hlines : envLines v =
        [str "CLAWDBOT_GATEWAY_URL=" ++ v.gatewayUrl,
         str "CLAWDBOT_GATEWAY_TOKEN=" ++ v.gatewayToken,
         str "CLAWDBOT_GATEWAY_PASSWORD=" ++ v.gatewayPassword] := by
      simp [envLines, hlen]
    have hshape : writeEnvFile v =
        (str "CLAWDBOT_GATEWAY_URL=" ++ v.gatewayUrl) ++ '\n' ::
          ((str "CLAWDBOT_GATEWAY_TOKEN=" ++ v.gatewayToken) ++ '\n' ::
            ((str "CLAWDBOT_GATEWAY_PASSWORD=" ++ v.gatewayPassword) ++ '\n' :: [])) := by
      simp [writeEnvFile, hlines, joinSep, List.append_assoc]
    rw [hshape, splitLines_append _ _ hu2, splitLines_append _ _ ht2,
      splitLines_append _ _ hp2]
    rfl

/-- C8 (witness): the spec's round-trip example, with and without a
password. -/
theorem writeEnvFile_lines_witness :
    splitLines (writeEnvFile ⟨str "ws://x", str "t", str ""⟩) =
      [str "CLAWDBOT_GATEWAY_URL=" ++ str "ws://x",
       str "CLAWDBOT_GATEWAY_TOKEN=" ++ str "t", []] ∧
    splitLines (writeEnvFile ⟨str "ws://x", str "t", str "pw"⟩) =
      [str "CLAWDBOT_GATEWAY_URL=" ++ str "ws://x",
       str "CLAWDBOT_GATEWAY_TOKEN=" ++ str "t",
       str "CLAWDBOT_GATEWAY_PASSWORD=" ++ str "pw", []] :=
  ⟨(writeEnvFile_lines _ (by decide) (by decide) (by decide)).1 rfl,
   (writeEnvFile_lines _ (by decide) (by decide) (by decide)).2 (by decide)⟩

/-! ## C10: ensureGitRepository -/

/-- C10: `ensureGitRepository` is a no-op when `.git` already exists;
otherwise it spawns `git init`, prints the status message exactly on a
zero exit status (printing nothing on failure, including a failed spawn,
modelled by a null status), and in every case ends normally — it never
throws and never exits. -/
theorem ensureGitRepository_total_spec :
    ∀ s : Option Int,
      ensureGitRepository true s = ⟨false, [], Outcome.normal⟩ ∧
      (ensureGitRepository false s).outcome = .normal ∧
      (ensureGitRepository false s).ranGitInit = true ∧
      (ensureGitRepository false s).stdoutOut = (if s == some 0 then [gitInitMsg] else []) := by
  intro s
  exact ⟨rfl, rfl, rfl, rfl⟩

end Webclaw
